import Mathlib

/-!
Verification of the sipster user-agent transaction layer
(`src/sipster/__init__.py`) against its natural-language specification.

The Python source is shallowly embedded: every stateful method of
`UserAgent`, `Application`, `Request` and `Response` becomes a pure Lean
function that takes the relevant state explicitly and returns the updated
state together with the produced effects (transmitted messages) or the
raised exception.  Python exceptions are modelled by `Except PyErr`;
because Python mutations performed before a `raise` persist, every
operation that can both mutate and raise returns the mutated state next
to the `Except` value.  The unbounded asynchronous inbound queue is
modelled by the finite list of messages that arrive during one call
(exhaustion of the list corresponds to the 30-second pop timeout).
-/

set_option maxHeartbeats 1000000

deriving instance DecidableEq for Except

namespace Sipster

/-- Characters strictly before the first space: the first component of
Python's `str.partition(' ')` on the underlying character list. -/
def beforeSpaceL : List Char → List Char
  | [] => []
  | c :: cs => if c = ' ' then [] else c :: beforeSpaceL cs

/-- Characters strictly after the first space, when one occurs: the part
after the separator in Python's `str.split(' ', 1)`. -/
def afterSpaceL : List Char → Option (List Char)
  | [] => none
  | c :: cs => if c = ' ' then some cs else afterSpaceL cs

/-- `s.partition(' ')[0]`: the leading token of `s` up to the first space. -/
def beforeSpace (s : String) : String := ⟨beforeSpaceL s.data⟩

/-- `s.split(' ', 1)` when it yields two parts; `none` models the
`ValueError` raised by unpacking a split that found no separator. -/
def splitOnceSpace (s : String) : Option (String × String) :=
  match afterSpaceL s.data with
  | none => none
  | some rest => some (⟨beforeSpaceL s.data⟩, ⟨rest⟩)

/-- Decimal value of one digit character. -/
def digitVal? (c : Char) : Option Nat :=
  if c.isDigit then some (c.toNat - 48) else none

/-- Value of a nonempty all-digit character list, `none` otherwise. -/
def decDigitsAux : List Char → Nat → Option Nat
  | [], acc => some acc
  | c :: cs, acc =>
    match digitVal? c with
    | none => none
    | some d => decDigitsAux cs (acc * 10 + d)

/-- Python `int(s)` on the strings this program feeds it: an optional
sign followed by at least one decimal digit; `none` models the
`ValueError` raised on anything else (surrounding whitespace and
underscore separators, which Python also accepts, never occur here). -/
def pyInt? (s : String) : Option Int :=
  match s.data with
  | [] => none
  | '-' :: rest =>
    match rest with
    | [] => none
    | _ => (decDigitsAux rest 0).map (fun n => -(n : Int))
  | '+' :: rest =>
    match rest with
    | [] => none
    | _ => (decDigitsAux rest 0).map (fun n => (n : Int))
  | l => (decDigitsAux l 0).map (fun n => (n : Int))

/-- A header dictionary: an insertion-ordered string-keyed map, as a
Python `dict` restricted to the operations the source uses. -/
abbrev Headers := List (String × String)

/-- Python `headers[key]` lookup (as used after a `key in headers` guard)
and `headers.get(key)`. -/
def hfind : Headers → String → Option String
  | [], _ => none
  | (k, v) :: h, key => if k = key then some v else hfind h key

/-- Python `headers[key] = val`: replace the value in place when the key
is present (dictionaries keep insertion order), append otherwise. -/
def hset : Headers → String → String → Headers
  | [], key, val => [(key, val)]
  | (k, v) :: h, key, val =>
    if k = key then (k, val) :: h else (k, v) :: hset h key val

/-- A raw parsed inbound message as handed over by the transport
collaborator.  The header fields the source reads (`Call-ID`, `CSeq`)
and the routing details (`to_details`, `from_details`) are modelled as
always-present fields, matching the raw message shape of spec section 6;
`isRequest` is the runtime kind (`aiosip.Request` vs `aiosip.Response`),
`statusCode`/`statusMessage` are meaningful for responses and `method`
for requests (aiosip also exposes a method on responses, taken from the
CSeq header). -/
structure RawMsg where
  isRequest : Bool
  method : String
  statusCode : Int
  statusMessage : String
  callId : String
  cseqHeader : String
  toDetails : String
  fromDetails : String
deriving DecidableEq

/-- The mutable per-agent state of `UserAgent.__init__` that the modelled
operations read or write: the CSeq counter (a Python int, initially 0),
the adopted Call-ID (initially `None`) and the ACK/CANCEL safety flag
(initially `False`).  The identity fields, the dialog reference and the
queue are carried separately: the dialog is assumed acquired (dialog
acquisition and its timeout are orthogonal to every claim below) and the
queue is the explicit message-list argument of the receive operations.
`method_routes` and `message_callback` are empty/`None`; the auto-respond
branch they would trigger is modelled by `recvAutoRespond`. -/
structure Agent where
  cseq : Int
  call_id : Option String
  require_cancel : Bool
deriving DecidableEq

/-- Python truthiness test `not self.call_id`: true for `None` and for
the empty string. -/
def pyFalsy : Option String → Bool
  | none => true
  | some s => s = ""

/-- An outbound request as transmitted by `dialog.send_message(method,
headers=headers.copy(), **kwargs)`. -/
structure SentReq where
  method : String
  headers : Headers
  toDetails : Option String
  fromDetails : Option String
deriving DecidableEq

/-- An outbound reply as transmitted by `dialog.send_reply(status_code,
status_message, headers=headers.copy(), **kwargs)`. -/
structure SentReply where
  statusCode : Int
  statusMessage : String
  headers : Headers
  toDetails : Option String
  fromDetails : Option String
deriving DecidableEq

/-- The Python exceptions the embedded code can raise.
`protocolMismatch` is the `RuntimeError('Unexpected message, expected
{}, found {}')` of `recv_request`, carrying the expected and the actual
value; `timeout` is `asyncio.TimeoutError`; `valueError` covers `int()`
on a non-numeric string and unpacking a failed `split`; `nameError` is
an undefined-identifier lookup; `attributeError` a failed attribute
access. -/
inductive PyErr
  | timeout
  | protocolMismatch (expected found : String)
  | valueError
  | nameError (n : String)
  | attributeError (n : String)
deriving DecidableEq

/-- Lines 230-233 of `send_request`: set the safety flag on INVITE,
clear it on ACK, leave it alone otherwise. -/
def applyRequireCancel (ua : Agent) (method : String) : Agent :=
  if method = "INVITE" then { ua with require_cancel := true }
  else if method = "ACK" then { ua with require_cancel := false }
  else ua

/-- `UserAgent.send_request(method, headers=None, **kwargs)` (lines
222-243).  The dialog is assumed acquired.  A falsy `headers` argument is
replaced by the empty dict; the safety flag is updated first; then the
CSeq header is synthesized from the incremented counter when absent,
otherwise the counter adopts the header's leading number (`int()` of the
partition may raise `ValueError`, in which case the flag update has
already happened — hence the mutated agent is returned alongside the
error).  The transmitted request is returned on success. -/
def send_request (ua : Agent) (method : String) (headers : Option Headers)
    (toD frD : Option String) : Agent × Except PyErr SentReq :=
  let hs := headers.getD []
  let ua1 := applyRequireCancel ua method
  match hfind hs "CSeq" with
  | none =>
    let c := ua1.cseq + 1
    ({ ua1 with cseq := c },
      .ok ⟨method, hset hs "CSeq" (toString c ++ " " ++ method), toD, frD⟩)
  | some v =>
    match pyInt? (beforeSpace v) with
    | none => (ua1, .error .valueError)
    | some n => ({ ua1 with cseq := n }, .ok ⟨method, hs, toD, frD⟩)

/-- `UserAgent.send_response(status, headers=None, **kwargs)` (lines
245-251).  The dialog is assumed acquired.  `status.split(' ', 1)` must
yield two parts and its first part must be numeric (else `ValueError`);
the call then evaluates `headers.copy()`, which on the `None` default
raises `AttributeError` — the source never substitutes an empty dict
here, unlike `send_request`.  Agent state is untouched. -/
def send_response (ua : Agent) (status : String) (headers : Option Headers)
    (toD frD : Option String) : Except PyErr SentReply :=
  match splitOnceSpace status with
  | none => .error .valueError
  | some (codeStr, msgStr) =>
    match pyInt? codeStr with
    | none => .error .valueError
    | some code =>
      match headers with
      | none => .error (.attributeError "copy")
      | some hs =>
        let _ := ua
        .ok ⟨code, msgStr, hs, toD, frD⟩

/-- The `Request` wrapper: the owning agent plus the raw message
(lines 17-38). -/
structure Request where
  agent : Agent
  data : RawMsg
deriving DecidableEq

/-- `Request.respond(status, headers={}, ...)` (lines 25-30): echo the
request's CSeq header into the headers and delegate to
`UserAgent.send_response` with the request's routing details. -/
def Request.respond (r : Request) (status : String) (headers : Headers) :
    Except PyErr SentReply :=
  send_response r.agent status (some (hset headers "CSeq" r.data.cseqHeader))
    (some r.data.toDetails) (some r.data.fromDetails)

/-- The `Response` wrapper: the owning agent plus the raw message
(lines 41-70). -/
structure Response where
  agent : Agent
  data : RawMsg
deriving DecidableEq

/-- `Response._respond(method, headers={}, ...)` (lines 55-62): take the
leading token of the response's CSeq header, pair it with the new method
token, and delegate to `UserAgent.send_request` with the response's
routing details. -/
def Response.respond_ (r : Response) (method : String) (headers : Headers) :
    Agent × Except PyErr SentReq :=
  let cseq := beforeSpace r.data.cseqHeader
  send_request r.agent method (some (hset headers "CSeq" (cseq ++ " " ++ method)))
    (some r.data.toDetails) (some r.data.fromDetails)

/-- `Response.ack()` (lines 49-50). -/
def Response.ack (r : Response) : Agent × Except PyErr SentReq :=
  r.respond_ "ACK" []

/-- `Response.cancel()` (lines 52-53). -/
def Response.cancel (r : Response) : Agent × Except PyErr SentReq :=
  r.respond_ "CANCEL" []

/-- `UserAgent.recv(msg_type)` (lines 150-172) specialised to an agent
with no registered `message_callback` and no `method_routes` (the
configuration every receive claim below quantifies over; the
auto-respond branch a registered interceptor can trigger is modelled by
`recvAutoRespond`): pop messages, skip those whose runtime kind differs
from `msg_type`, and return the first match with the remaining queue.
`kind = true` selects requests.  Exhausting the finite inbound list
models the 30-second queue-pop timeout. -/
def recv (kind : Bool) : List RawMsg → Except PyErr (RawMsg × List RawMsg)
  | [] => .error .timeout
  | m :: rest => if m.isRequest = kind then .ok (m, rest) else recv kind rest

/-- The `while True` loop of `UserAgent.recv_request` (lines 176-184)
with `recv(aiosip.Request)` inlined (each non-request message is skipped
by `recv` itself; `recv_request_loop_recv` below re-states the loop in
terms of `recv`): adopt the Call-ID from the first request when the
agent's is still falsy, skip requests carrying a different Call-ID, skip
requests whose method is in `ignore`, return the first accepted request.
The agent (whose `call_id` may have been adopted meanwhile) is returned
in every outcome. -/
def recv_request_loop :
    Agent → List String → List RawMsg → Agent × Except PyErr (RawMsg × List RawMsg)
  | ua, _, [] => (ua, .error .timeout)
  | ua, ignore, m :: rest =>
    if m.isRequest then
      if pyFalsy ua.call_id then
        let ua1 : Agent := { ua with call_id := some m.callId }
        if m.method ∈ ignore then recv_request_loop ua1 ignore rest
        else (ua1, .ok (m, rest))
      else if m.callId ≠ ua.call_id.getD "" then recv_request_loop ua ignore rest
      else if m.method ∈ ignore then recv_request_loop ua ignore rest
      else (ua, .ok (m, rest))
    else recv_request_loop ua ignore rest

/-- `UserAgent.recv_request(method, ignore=[])` (lines 174-194): run the
loop; on the accepted request, seed the CSeq counter from the message's
CSeq leading number when the counter is falsy (zero) — `int()` may raise
`ValueError` —, then raise the mismatch `RuntimeError` (which reports
the expected and the found method) when the method differs, else return
the wrapped request and the unconsumed remainder of the queue. -/
def recv_request (ua : Agent) (method : String) (ignore : List String)
    (q : List RawMsg) : Agent × Except PyErr (Request × List RawMsg) :=
  match recv_request_loop ua ignore q with
  | (ua1, .error e) => (ua1, .error e)
  | (ua1, .ok (m, rest)) =>
    if ua1.cseq = 0 then
      match pyInt? (beforeSpace m.cseqHeader) with
      | none => (ua1, .error .valueError)
      | some n =>
        let ua2 : Agent := { ua1 with cseq := n }
        if m.method ≠ method then (ua2, .error (.protocolMismatch method m.method))
        else (ua2, .ok (⟨ua2, m⟩, rest))
    else
      if m.method ≠ method then (ua1, .error (.protocolMismatch method m.method))
      else (ua1, .ok (⟨ua1, m⟩, rest))

/-- The `while True` loop of `UserAgent.recv_response` (lines 201-209),
the exact response-side analogue of `recv_request_loop`: Call-ID
adoption and filtering are identical, the ignore test is on the status
code. -/
def recv_response_loop :
    Agent → List Int → List RawMsg → Agent × Except PyErr (RawMsg × List RawMsg)
  | ua, _, [] => (ua, .error .timeout)
  | ua, ignore, m :: rest =>
    if m.isRequest then recv_response_loop ua ignore rest
    else
      if pyFalsy ua.call_id then
        let ua1 : Agent := { ua with call_id := some m.callId }
        if m.statusCode ∈ ignore then recv_response_loop ua1 ignore rest
        else (ua1, .ok (m, rest))
      else if m.callId ≠ ua.call_id.getD "" then recv_response_loop ua ignore rest
      else if m.statusCode ∈ ignore then recv_response_loop ua ignore rest
      else (ua, .ok (m, rest))

/-- The outcome of one `recv_response` call: the agent as mutated up to
the return or raise point, the requests transmitted on the way (the ACK
safety net sends at most one), and either the accepted wrapped response
with the unconsumed queue or the raised exception. -/
structure RecvRespOut where
  agent : Agent
  sent : List SentReq
  res : Except PyErr (Response × List RawMsg)
deriving DecidableEq

/-- `UserAgent.recv_response(status, ignore=[])` (lines 196-220): split
and parse the expected status first; run the loop; when the accepted
response's status code differs from the expected code, send an ACK for
it when `require_cancel` is set, then evaluate the mismatch
`RuntimeError`'s format arguments — the first one is the identifier
`method`, which is not defined anywhere in `recv_response`, so Python
raises `NameError` at that point instead; on a matching status return
the wrapped response. -/
def recv_response (ua : Agent) (status : String) (ignore : List Int)
    (q : List RawMsg) : RecvRespOut :=
  match splitOnceSpace status with
  | none => ⟨ua, [], .error .valueError⟩
  | some (codeStr, _msgStr) =>
    match pyInt? codeStr with
    | none => ⟨ua, [], .error .valueError⟩
    | some code =>
      match recv_response_loop ua ignore q with
      | (ua1, .error e) => ⟨ua1, [], .error e⟩
      | (ua1, .ok (m, rest)) =>
        if m.statusCode ≠ code then
          if ua1.require_cancel then
            match Response.ack ⟨ua1, m⟩ with
            | (ua2, .error e) => ⟨ua2, [], .error e⟩
            | (ua2, .ok sentAck) => ⟨ua2, [sentAck], .error (.nameError "method")⟩
          else ⟨ua1, [], .error (.nameError "method")⟩
        else ⟨ua1, [], .ok (⟨ua1, m⟩, rest)⟩

/-- The per-listener dispatcher state of `Application` (lines 73-116):
the Call-ID table `_dialogs` (all dialogs of this application forward
into the one owning agent's queue, so only the registered Call-IDs
matter), that queue, and whether the `dialog_ready` future is resolved. -/
structure AppState where
  dialogs : List String
  queue : List RawMsg
  dialogReady : Bool
deriving DecidableEq

/-- `Dialog.receive_message(msg)` (lines 13-14): `put_nowait` on the
owning agent's unbounded queue — appends, never blocks, never drops. -/
def receive_message (s : AppState) (m : RawMsg) : AppState :=
  { s with queue := s.queue ++ [m] }

/-- `Application.handle_incoming` (lines 79-108) as one atomic scheduled
task (the cooperative scheduler of spec section 5; connection creation
by the transport collaborator is abstracted as succeeding): discard the
message when `dialog_ready` is already resolved; otherwise register a
new dialog under the message's Call-ID, forward the message into it, and
resolve `dialog_ready`. -/
def handle_incoming (s : AppState) (m : RawMsg) : AppState :=
  if s.dialogReady then s
  else { s with
          dialogs := s.dialogs ++ [m.callId]
          queue := s.queue ++ [m]
          dialogReady := true }

/-- `Application.dispatch` (lines 110-116): forward the message to the
registered dialog for its Call-ID when one exists, otherwise schedule
`handle_incoming` for it. -/
def dispatch (s : AppState) (m : RawMsg) : AppState :=
  if m.callId ∈ s.dialogs then receive_message s m
  else handle_incoming s m

/-- Attribute names resolvable directly on a `Request` wrapper before
`__getattr__` delegation: the instance attributes of `__init__` and the
non-dunder methods of the class body (lines 17-38). -/
def requestClassAttrs : List String := ["agent", "data", "respond"]

/-- Attribute names resolvable directly on a `Response` wrapper before
`__getattr__` delegation: the instance attributes of `__init__` and the
non-dunder methods of the class body (lines 41-70) — there is no
`respond` among them. -/
def responseClassAttrs : List String := ["agent", "data", "ack", "cancel", "_respond"]

/-- Modelled from the spec: the attribute surface of the raw parsed
message supplied by the external transport library (which is outside
src/) — spec section 6 gives its shape as method or status code plus
status text, headers and body, and the source additionally reads the
routing detail attributes listed here.  No `respond` attribute exists on
a raw message. -/
def rawMessageAttrs : List String :=
  ["method", "status_code", "status_message", "headers", "body",
   "to_details", "from_details", "contact_details"]

/-- Whether `wrapped_msg.respond` resolves under Python attribute
lookup: first the wrapper's own attributes, then — via `__getattr__`
(lines 22-23 and 46-47) — the attributes of the wrapped raw message. -/
def wrapperRespondResolves (isReq : Bool) : Bool :=
  if isReq then
    requestClassAttrs.contains "respond" || rawMessageAttrs.contains "respond"
  else
    responseClassAttrs.contains "respond" || rawMessageAttrs.contains "respond"

/-- The auto-respond step of `UserAgent.recv` (lines 156-168): a
registered interceptor returned the non-empty value `respVal`, so recv
evaluates `wrapped_msg.respond(respVal)`.  When the attribute resolves
the resolved method is `Request.respond` — the only `respond` any
wrapper defines; when it does not (`wrapperRespondResolves` is false),
Python raises `AttributeError` from the `getattr` delegation. -/
def recvAutoRespond (ua : Agent) (m : RawMsg) (respVal : String) :
    Agent × Except PyErr SentReply :=
  if wrapperRespondResolves m.isRequest then
    (ua, Request.respond ⟨ua, m⟩ respVal [])
  else (ua, .error (.attributeError "respond"))

/-- Iterated `send_request` with synthesized CSeq headers: the trace of
locally originated sends the safety-flag invariant quantifies over. -/
def foldSends : Agent → List String → Agent
  | ua, [] => ua
  | ua, m :: ms => foldSends (send_request ua m none none none).1 ms

/-! ## General lemmas about the embedded operations -/

theorem hfind_hset (h : Headers) (k v : String) : hfind (hset h k v) k = some v := by
  induction h with
  | nil => simp [hset, hfind]
  | cons p t ih =>
    obtain ⟨k1, v1⟩ := p
    by_cases hk : k1 = k
    · simp [hset, hfind, hk]
    · simp [hset, hfind, hk, ih]

theorem applyRequireCancel_cseq (ua : Agent) (m : String) :
    (applyRequireCancel ua m).cseq = ua.cseq := by
  unfold applyRequireCancel; split_ifs <;> rfl

theorem applyRequireCancel_call_id (ua : Agent) (m : String) :
    (applyRequireCancel ua m).call_id = ua.call_id := by
  unfold applyRequireCancel; split_ifs <;> rfl

theorem applyRequireCancel_rc (ua : Agent) (m : String) :
    (applyRequireCancel ua m).require_cancel =
      (if m = "INVITE" then true
       else if m = "ACK" then false
       else ua.require_cancel) := by
  unfold applyRequireCancel; split_ifs <;> rfl

theorem send_request_fst_call_id (ua : Agent) (m : String) (h : Option Headers)
    (toD frD : Option String) :
    (send_request ua m h toD frD).1.call_id = ua.call_id := by
  unfold send_request
  rcases hf : hfind (h.getD []) "CSeq" with _ | v
  · simp [hf, applyRequireCancel_call_id]
  · rcases hp : pyInt? (beforeSpace v) with _ | n <;>
      simp [hf, hp, applyRequireCancel_call_id]

theorem send_request_fst_rc (ua : Agent) (m : String) (h : Option Headers)
    (toD frD : Option String) :
    (send_request ua m h toD frD).1.require_cancel =
      (applyRequireCancel ua m).require_cancel := by
  unfold send_request
  rcases hf : hfind (h.getD []) "CSeq" with _ | v
  · simp [hf]
  · rcases hp : pyInt? (beforeSpace v) with _ | n <;> simp [hf, hp]

theorem foldSends_append (l1 l2 : List String) :
    ∀ ua : Agent, foldSends ua (l1 ++ l2) = foldSends (foldSends ua l1) l2 := by
  induction l1 with
  | nil => intro ua; rfl
  | cons m ms ih => intro ua; simp only [List.cons_append, foldSends]; exact ih _

theorem foldSends_rc_iff (ms : List String) :
    ∀ ua : Agent,
      ((foldSends ua ms).require_cancel = true ↔
        ((ms.filter (fun x => x == "INVITE" || x == "ACK")).getLast? = some "INVITE" ∨
         ((ms.filter (fun x => x == "INVITE" || x == "ACK")) = [] ∧
           ua.require_cancel = true))) := by
  induction ms using List.reverseRecOn with
  | nil => intro ua; simp [foldSends]
  | append_singleton l a ih =>
    intro ua
    rw [foldSends_append]
    have hstep : (foldSends (foldSends ua l) [a]).require_cancel =
        (applyRequireCancel (foldSends ua l) a).require_cancel := by
      show (send_request (foldSends ua l) a none none none).1.require_cancel = _
      exact send_request_fst_rc _ _ _ _ _
    rw [hstep, applyRequireCancel_rc, List.filter_append]
    by_cases ha1 : a = "INVITE"
    · simp [ha1, List.getLast?_concat]
    · by_cases ha2 : a = "ACK"
      · simp [ha1, ha2, List.getLast?_concat]
      · have hab : (a == "INVITE" || a == "ACK") = false := by simp [ha1, ha2]
        have hfa : List.filter (fun x => x == "INVITE" || x == "ACK") [a] = [] := by
          simp [List.filter_cons, hab]
        simp only [hfa, List.append_nil, if_neg ha1, if_neg ha2]
        exact ih ua

theorem recv_request_loop_cseq_rc (q : List RawMsg) :
    ∀ (ua : Agent) (ignore : List String),
      (recv_request_loop ua ignore q).1.cseq = ua.cseq ∧
      (recv_request_loop ua ignore q).1.require_cancel = ua.require_cancel := by
  induction q with
  | nil => intro ua ig; exact ⟨rfl, rfl⟩
  | cons m rest ih =>
    intro ua ig
    simp only [recv_request_loop]
    cases hreq : m.isRequest
    · simpa using ih ua ig
    · simp only [if_true]
      by_cases hfal : pyFalsy ua.call_id
      · simp only [hfal, if_true]
        by_cases hig : m.method ∈ ig
        · simpa [hig] using ih { ua with call_id := some m.callId } ig
        · simp [hig]
      · simp only [Bool.not_eq_true] at hfal
        simp only [hfal, Bool.false_eq_true, if_false]
        by_cases hcid : m.callId ≠ ua.call_id.getD ""
        · simpa [hcid] using ih ua ig
        · by_cases hig : m.method ∈ ig
          · simpa [hcid, hig] using ih ua ig
          · simp [hcid, hig]

theorem recv_response_loop_cseq_rc (q : List RawMsg) :
    ∀ (ua : Agent) (ignore : List Int),
      (recv_response_loop ua ignore q).1.cseq = ua.cseq ∧
      (recv_response_loop ua ignore q).1.require_cancel = ua.require_cancel := by
  induction q with
  | nil => intro ua ig; exact ⟨rfl, rfl⟩
  | cons m rest ih =>
    intro ua ig
    simp only [recv_response_loop]
    cases hreq : m.isRequest
    · simp only [Bool.false_eq_true, if_false]
      by_cases hfal : pyFalsy ua.call_id
      · simp only [hfal, if_true]
        by_cases hig : m.statusCode ∈ ig
        · simpa [hig] using ih { ua with call_id := some m.callId } ig
        · simp [hig]
      · simp only [Bool.not_eq_true] at hfal
        simp only [hfal, Bool.false_eq_true, if_false]
        by_cases hcid : m.callId ≠ ua.call_id.getD ""
        · simpa [hcid] using ih ua ig
        · by_cases hig : m.statusCode ∈ ig
          · simpa [hcid, hig] using ih ua ig
          · simp [hcid, hig]
    · simpa using ih ua ig

theorem recv_request_loop_call_id (ignore : List String) (s : String) (hne : s ≠ "")
    (q : List RawMsg) :
    ∀ ua : Agent, ua.call_id = some s →
      (recv_request_loop ua ignore q).1.call_id = some s ∧
      ∀ m rest, (recv_request_loop ua ignore q).2 = .ok (m, rest) → m.callId = s := by
  induction q with
  | nil =>
    intro ua hua
    exact ⟨hua, by intro m rest h; simp [recv_request_loop] at h⟩
  | cons m rest ih =>
    intro ua hua
    have hfal : pyFalsy ua.call_id = false := by simp [pyFalsy, hua, hne]
    simp only [recv_request_loop, hfal, Bool.false_eq_true, if_false]
    cases hreq : m.isRequest
    · simpa using ih ua hua
    · simp only [if_true, hua, Option.getD_some]
      by_cases hcid : m.callId ≠ s
      · simpa [hcid] using ih ua hua
      · simp only [Decidable.not_not] at hcid
        by_cases hig : m.method ∈ ignore
        · simpa [hcid, hig] using ih ua hua
        · refine ⟨?_, ?_⟩
          · simp [hcid, hig, hua]
          · intro m1 rest1 h
            simp only [hcid, ne_eq, not_true_eq_false, if_false, hig,
              ite_false] at h
            cases h
            exact hcid

theorem recv_response_loop_call_id (ignore : List Int) (s : String) (hne : s ≠ "")
    (q : List RawMsg) :
    ∀ ua : Agent, ua.call_id = some s →
      (recv_response_loop ua ignore q).1.call_id = some s ∧
      ∀ m rest, (recv_response_loop ua ignore q).2 = .ok (m, rest) → m.callId = s := by
  induction q with
  | nil =>
    intro ua hua
    exact ⟨hua, by intro m rest h; simp [recv_response_loop] at h⟩
  | cons m rest ih =>
    intro ua hua
    have hfal : pyFalsy ua.call_id = false := by simp [pyFalsy, hua, hne]
    simp only [recv_response_loop, hfal, Bool.false_eq_true, if_false]
    cases hreq : m.isRequest
    · simp only [Bool.false_eq_true, if_false, hua, Option.getD_some]
      by_cases hcid : m.callId ≠ s
      · simpa [hcid] using ih ua hua
      · simp only [Decidable.not_not] at hcid
        by_cases hig : m.statusCode ∈ ignore
        · simpa [hcid, hig] using ih ua hua
        · refine ⟨?_, ?_⟩
          · simp [hcid, hig, hua]
          · intro m1 rest1 h
            simp only [hcid, ne_eq, not_true_eq_false, if_false, hig,
              ite_false] at h
            cases h
            exact hcid
    · simpa using ih ua hua

theorem beforeSpaceL_no_space (l : List Char) : ' ' ∉ beforeSpaceL l := by
  induction l with
  | nil => simp [beforeSpaceL]
  | cons c cs ih =>
    by_cases hc : c = ' '
    · simp [beforeSpaceL, hc]
    · simp only [beforeSpaceL, if_neg hc, List.mem_cons]
      push_neg
      exact ⟨fun h => hc h.symm, ih⟩

theorem beforeSpaceL_append (l1 l2 : List Char) (h : ' ' ∉ l1) :
    beforeSpaceL (l1 ++ ' ' :: l2) = l1 := by
  induction l1 with
  | nil => simp [beforeSpaceL]
  | cons c cs ih =>
    have hc : ¬ c = ' ' := fun hc => h (hc ▸ List.mem_cons_self c cs)
    simp only [List.cons_append, beforeSpaceL, if_neg hc]
    show c :: beforeSpaceL (cs ++ ' ' :: l2) = c :: cs
    rw [ih (fun hm => h (List.mem_cons_of_mem c hm))]

theorem beforeSpace_token (s t : String) :
    beforeSpace (beforeSpace s ++ " " ++ t) = beforeSpace s := by
  have hd : (beforeSpace s ++ " " ++ t).data = beforeSpaceL s.data ++ ' ' :: t.data := by
    have h1 : (beforeSpace s ++ " " ++ t).data =
        (beforeSpace s).data ++ " ".data ++ t.data := rfl
    rw [h1]
    simp [beforeSpace]
  show (⟨beforeSpaceL (beforeSpace s ++ " " ++ t).data⟩ : String) = beforeSpace s
  rw [hd, beforeSpaceL_append _ _ (beforeSpaceL_no_space s.data)]
  rfl

theorem Response_ack_fst_call_id (r : Response) :
    (Response.ack r).1.call_id = r.agent.call_id := by
  simp only [Response.ack, Response.respond_]
  exact send_request_fst_call_id _ _ _ _ _

theorem recv_request_call_id_pres (ua : Agent) (method : String) (ignore : List String)
    (q : List RawMsg) (s : String) (hs : ua.call_id = some s) (hne : s ≠ "") :
    (recv_request ua method ignore q).1.call_id = some s ∧
    ∀ r rest, (recv_request ua method ignore q).2 = .ok (r, rest) →
      r.data.callId = s := by
  obtain ⟨hpres, hok⟩ := recv_request_loop_call_id ignore s hne q ua hs
  unfold recv_request
  rcases hl : recv_request_loop ua ignore q with ⟨ua1, res⟩
  rw [hl] at hpres hok
  rcases res with e | ⟨m, rest1⟩ <;> dsimp only
  · exact ⟨hpres, by intro r rest h; simp at h⟩
  · have hmid : m.callId = s := hok m rest1 rfl
    by_cases hz : ua1.cseq = 0
    · rw [if_pos hz]
      rcases hp : pyInt? (beforeSpace m.cseqHeader) with _ | n <;> dsimp only
      · exact ⟨hpres, by intro r rest h; simp at h⟩
      · by_cases hmm : m.method ≠ method
        · rw [if_pos hmm]
          exact ⟨hpres, by intro r rest h; simp at h⟩
        · rw [if_neg hmm]
          refine ⟨hpres, ?_⟩
          intro r rest h
          rw [Except.ok.injEq, Prod.mk.injEq] at h
          obtain ⟨hr, -⟩ := h
          rw [← hr]
          exact hmid
    · rw [if_neg hz]
      by_cases hmm : m.method ≠ method
      · rw [if_pos hmm]
        exact ⟨hpres, by intro r rest h; simp at h⟩
      · rw [if_neg hmm]
        refine ⟨hpres, ?_⟩
        intro r rest h
        rw [Except.ok.injEq, Prod.mk.injEq] at h
        obtain ⟨hr, -⟩ := h
        rw [← hr]
        exact hmid

theorem recv_response_call_id_pres (ua : Agent) (status : String) (ignoreS : List Int)
    (q : List RawMsg) (s : String) (hs : ua.call_id = some s) (hne : s ≠ "") :
    (recv_response ua status ignoreS q).agent.call_id = some s ∧
    ∀ r rest, (recv_response ua status ignoreS q).res = .ok (r, rest) →
      r.data.callId = s := by
  obtain ⟨hpres, hok⟩ := recv_response_loop_call_id ignoreS s hne q ua hs
  unfold recv_response
  rcases hsp : splitOnceSpace status with _ | ⟨codeStr, msgStr⟩ <;> dsimp only
  · exact ⟨hs, by intro r rest h; simp at h⟩
  · rcases hpc : pyInt? codeStr with _ | code <;> dsimp only
    · exact ⟨hs, by intro r rest h; simp at h⟩
    · rcases hl : recv_response_loop ua ignoreS q with ⟨ua1, res⟩
      rw [hl] at hpres hok
      rcases res with e | ⟨m, rest1⟩ <;> dsimp only
      · exact ⟨hpres, by intro r rest h; simp at h⟩
      · have hmid : m.callId = s := hok m rest1 rfl
        by_cases hmc : m.statusCode ≠ code
        · rw [if_pos hmc]
          by_cases hrc : ua1.require_cancel = true
          · rw [if_pos hrc]
            rcases hack : Response.ack ⟨ua1, m⟩ with ⟨ua2, ares⟩
            have hua2 : ua2.call_id = some s := by
              have h2 := Response_ack_fst_call_id ⟨ua1, m⟩
              rw [hack] at h2
              exact h2.trans hpres
            rcases ares with e | sentAck <;> dsimp only
            · exact ⟨hua2, by intro r rest h; simp at h⟩
            · exact ⟨hua2, by intro r rest h; simp at h⟩
          · rw [if_neg hrc]
            exact ⟨hpres, by intro r rest h; simp at h⟩
        · rw [if_neg hmc]
          refine ⟨hpres, ?_⟩
          intro r rest h
          rw [Except.ok.injEq, Prod.mk.injEq] at h
          obtain ⟨hr, -⟩ := h
          rw [← hr]
          exact hmid

theorem Response_ack_cseq (r : Response) :
    (Response.ack r).1.cseq = r.agent.cseq ∨
    pyInt? (beforeSpace r.data.cseqHeader) = some (Response.ack r).1.cseq := by
  simp only [Response.ack, Response.respond_, send_request, Option.getD_some]
  have hf : hfind (hset [] "CSeq" (beforeSpace r.data.cseqHeader ++ " " ++ "ACK")) "CSeq" =
      some (beforeSpace r.data.cseqHeader ++ " " ++ "ACK") := hfind_hset _ _ _
  rw [hf]
  dsimp only
  rw [beforeSpace_token]
  rcases hp : pyInt? (beforeSpace r.data.cseqHeader) with _ | n <;> dsimp only
  · left
    exact applyRequireCancel_cseq _ _
  · right
    rfl

/-! ## Claim theorems -/

/-- C1 (behaviour of the code at the failing input): `recv_response`
expecting "200 OK" and receiving a 486 response sends exactly one ACK
for the received response when `require_cancel` is true (carrying the
response's CSeq number with the ACK method and its routing details) and
none when it is false — but in both cases the call then fails with
`NameError` on the undefined identifier `method` used in the mismatch
error message, not with a Protocol-Mismatch error reporting expected vs
actual status. -/
theorem recv_response_mismatch_acks_then_nameError :
    recv_response ⟨5, some "c1", true⟩ "200 OK" []
        [⟨false, "INVITE", 486, "Busy Here", "c1", "1 INVITE", "tA", "fA"⟩] =
      ⟨⟨1, some "c1", false⟩, [⟨"ACK", [("CSeq", "1 ACK")], some "tA", some "fA"⟩],
        .error (.nameError "method")⟩ ∧
    recv_response ⟨5, some "c1", false⟩ "200 OK" []
        [⟨false, "INVITE", 486, "Busy Here", "c1", "1 INVITE", "tA", "fA"⟩] =
      ⟨⟨5, some "c1", false⟩, [], .error (.nameError "method")⟩ := by
  constructor <;> rfl

/-- C4: once the agent's `call_id` holds a (non-empty, as every real
Call-ID is) string `s`, it never changes — across `recv_request`,
`recv_response` (including its ACK safety-net path) and `send_request` —
and any message `recv_request`/`recv_response` returns to the caller
carries exactly that Call-ID: messages with a different Call-ID are
skipped, never returned, however many arrive. -/
theorem call_id_immutable_and_filters (ua : Agent) (s : String)
    (hs : ua.call_id = some s) (hne : s ≠ "") (method status : String)
    (ignore : List String) (ignoreS : List Int) (q : List RawMsg)
    (headers : Option Headers) (toD frD : Option String) :
    ((recv_request ua method ignore q).1.call_id = some s ∧
      ∀ r rest, (recv_request ua method ignore q).2 = .ok (r, rest) →
        r.data.callId = s) ∧
    ((recv_response ua status ignoreS q).agent.call_id = some s ∧
      ∀ r rest, (recv_response ua status ignoreS q).res = .ok (r, rest) →
        r.data.callId = s) ∧
    (send_request ua method headers toD frD).1.call_id = some s :=
  ⟨recv_request_call_id_pres ua method ignore q s hs hne,
   recv_response_call_id_pres ua status ignoreS q s hs hne,
   (send_request_fst_call_id ua method headers toD frD).trans hs⟩

/-- C6: when the first accepted message of `recv_request` (matching
Call-ID, method not ignored) has a method different from the expected
one, the call fails with the mismatch error reporting both the expected
and the actual method; when the methods match, the wrapped request is
returned without error (the hypothesis rules out the orthogonal
`ValueError` of CSeq seeding from a non-numeric header). -/
theorem recv_request_mismatch_reports_both (ua : Agent) (method : String)
    (ignore : List String) (q : List RawMsg) (ua1 : Agent) (m : RawMsg)
    (rest : List RawMsg)
    (hloop : recv_request_loop ua ignore q = (ua1, .ok (m, rest)))
    (hseed : ua1.cseq ≠ 0 ∨ (pyInt? (beforeSpace m.cseqHeader)).isSome = true) :
    (m.method ≠ method →
      (recv_request ua method ignore q).2 =
        .error (.protocolMismatch method m.method)) ∧
    (m.method = method →
      ∃ ua2, recv_request ua method ignore q = (ua2, .ok (⟨ua2, m⟩, rest))) := by
  unfold recv_request
  rw [hloop]
  dsimp only
  by_cases hz : ua1.cseq = 0
  · rcases hseed with hn0 | hsome
    · exact absurd hz hn0
    · rcases hp : pyInt? (beforeSpace m.cseqHeader) with _ | n
      · rw [hp] at hsome; simp at hsome
      · rw [if_pos hz]
        dsimp only
        constructor
        · intro hm
          rw [if_pos hm]
        · intro hm
          rw [if_neg (by simpa using hm)]
          exact ⟨_, rfl⟩
  · rw [if_neg hz]
    constructor
    · intro hm
      rw [if_pos hm]
    · intro hm
      rw [if_neg (by simpa using hm)]
      exact ⟨_, rfl⟩

/-- C7: for a response whose CSeq header's leading token is the number
`n`, `ack()` and `cancel()` build and transmit — through `send_request`
— a new request of method ACK resp. CANCEL whose CSeq header pairs the
same number with the replaced method token and whose routing details
are copied from the response (the agent's counter adopts `n`; ACK also
clears the safety flag, CANCEL leaves it). -/
theorem response_ack_cancel_replace_method (ua : Agent) (data : RawMsg) (n : Int)
    (hn : pyInt? (beforeSpace data.cseqHeader) = some n) :
    Response.ack ⟨ua, data⟩ =
      ({ ua with require_cancel := false, cseq := n },
        .ok ⟨"ACK", [("CSeq", beforeSpace data.cseqHeader ++ " " ++ "ACK")],
          some data.toDetails, some data.fromDetails⟩) ∧
    Response.cancel ⟨ua, data⟩ =
      ({ ua with cseq := n },
        .ok ⟨"CANCEL", [("CSeq", beforeSpace data.cseqHeader ++ " " ++ "CANCEL")],
          some data.toDetails, some data.fromDetails⟩) := by
  have key : ∀ method : String,
      send_request ua method
          (some [("CSeq", beforeSpace data.cseqHeader ++ " " ++ method)])
          (some data.toDetails) (some data.fromDetails) =
        ({ applyRequireCancel ua method with cseq := n },
          .ok ⟨method, [("CSeq", beforeSpace data.cseqHeader ++ " " ++ method)],
            some data.toDetails, some data.fromDetails⟩) := by
    intro method
    simp only [send_request, Option.getD_some]
    have hf : hfind [("CSeq", beforeSpace data.cseqHeader ++ " " ++ method)] "CSeq" =
        some (beforeSpace data.cseqHeader ++ " " ++ method) := by
      simp [hfind]
    rw [hf]
    dsimp only
    rw [beforeSpace_token, hn]
  exact ⟨key "ACK", key "CANCEL"⟩

/-- C8 (the dispatcher tasks run atomically on the cooperative
scheduler): a message whose Call-ID is registered is forwarded to the
dialog's receive operation, which appends it to the agent queue without
dropping and changes nothing else; an unmatched message finding the
dialog-ready signal already resolved is discarded entirely; and along
any sequence of dispatches a resolved signal stays resolved — it is
never re-resolved, so it resolves at most once over the whole
execution. -/
theorem dispatch_routes_and_resolves_once (s : AppState) (m : RawMsg) :
    (m.callId ∈ s.dialogs → dispatch s m = { s with queue := s.queue ++ [m] }) ∧
    (m.callId ∉ s.dialogs → s.dialogReady = true → dispatch s m = s) ∧
    (∀ msgs : List RawMsg, s.dialogReady = true →
      (msgs.foldl dispatch s).dialogReady = true) := by
  refine ⟨?_, ?_, ?_⟩
  · intro hmem
    simp [dispatch, hmem, receive_message]
  · intro hmem hready
    simp [dispatch, hmem, handle_incoming, hready]
  · intro msgs
    induction msgs generalizing s with
    | nil => intro h; exact h
    | cons m1 ms ih =>
      intro hready
      rw [List.foldl_cons]
      apply ih
      unfold dispatch
      by_cases hmem : m1.callId ∈ s.dialogs
      · rw [if_pos hmem]
        exact hready
      · rw [if_neg hmem]
        unfold handle_incoming
        rw [if_pos hready]
        exact hready

/-- C10: when the inbound message is of Response kind and an interceptor
returned a non-empty value, the auto-respond step of `recv` fails with
`AttributeError` on `respond`: the Response wrapper defines no such
attribute and the `__getattr__` delegation target (the raw message) has
none either; the same step on a Request-kind message succeeds, so
auto-respond only works for requests. -/
theorem response_kind_auto_respond_fails (ua : Agent) (m : RawMsg) (respVal : String)
    (hm : m.isRequest = false) :
    recvAutoRespond ua m respVal = (ua, .error (.attributeError "respond")) ∧
    wrapperRespondResolves false = false ∧
    (∀ m2 : RawMsg, m2.isRequest = true →
      ∃ rep, recvAutoRespond ua m2 "200 OK" = (ua, .ok rep)) := by
  refine ⟨?_, rfl, ?_⟩
  · unfold recvAutoRespond
    rw [hm]
    rfl
  · intro m2 hm2
    unfold recvAutoRespond
    rw [hm2]
    exact ⟨⟨200, "OK", [("CSeq", m2.cseqHeader)], some m2.toDetails, some m2.fromDetails⟩,
      rfl⟩

/-- C2: `send_request` without a caller-supplied CSeq header increments
the agent's counter by exactly 1 and the transmitted request carries a
CSeq header pairing the new counter value with the method; with a
caller-supplied CSeq header the counter is set to that header's leading
number. -/
theorem send_request_cseq_spec (ua : Agent) (method : String)
    (headers : Option Headers) (toD frD : Option String) :
    (hfind (headers.getD []) "CSeq" = none →
      (send_request ua method headers toD frD).1.cseq = ua.cseq + 1 ∧
      ∃ sm, (send_request ua method headers toD frD).2 = .ok sm ∧
        sm.method = method ∧
        hfind sm.headers "CSeq" = some (toString (ua.cseq + 1) ++ " " ++ method)) ∧
    (∀ v n, hfind (headers.getD []) "CSeq" = some v →
      pyInt? (beforeSpace v) = some n →
      (send_request ua method headers toD frD).1.cseq = n) := by
  constructor
  · intro hf
    simp only [send_request, hf]
    refine ⟨by simp [applyRequireCancel_cseq], ⟨_, rfl, rfl, ?_⟩⟩
    rw [applyRequireCancel_cseq]
    exact hfind_hset _ _ _
  · intro v n hv hn
    simp only [send_request, hv, hn]

/-- Witness for C2 at concrete inputs: counter 3, an unlabelled INVITE
send goes to 4 and transmits CSeq "4 INVITE"; a BYE send supplying
CSeq "9 BYE" sets the counter to 9. -/
theorem send_request_cseq_spec_witness :
    ((send_request ⟨3, none, false⟩ "INVITE" none none none).1.cseq = (3 : Int) + 1 ∧
      ∃ sm, (send_request ⟨3, none, false⟩ "INVITE" none none none).2 = .ok sm ∧
        sm.method = "INVITE" ∧
        hfind sm.headers "CSeq" = some (toString ((3 : Int) + 1) ++ " " ++ "INVITE")) ∧
    (send_request ⟨3, none, false⟩ "BYE" (some [("CSeq", "9 BYE")]) none none).1.cseq = 9 :=
  ⟨(send_request_cseq_spec ⟨3, none, false⟩ "INVITE" none none none).1 rfl,
   (send_request_cseq_spec ⟨3, none, false⟩ "BYE" (some [("CSeq", "9 BYE")]) none none).2
     "9 BYE" 9 rfl (by decide)⟩

/-- C3 counterexample: the cseq counter does not only increase.  After
two unlabelled sends the counter is 2; a third send supplying the
explicit header CSeq "1 ACK" sets it back to 1, a strictly smaller
value, refuting the claim that every change after seeding makes the
counter strictly larger. -/
theorem cseq_not_monotone_counterexample :
    (send_request (send_request ⟨0, none, false⟩ "INVITE" none none none).1
        "INFO" none none none).1.cseq = 2 ∧
    (send_request (send_request (send_request ⟨0, none, false⟩ "INVITE" none none none).1
        "INFO" none none none).1 "ACK" (some [("CSeq", "1 ACK")]) none none).1.cseq = 1 ∧
    ((send_request (send_request (send_request ⟨0, none, false⟩ "INVITE" none none none).1
        "INFO" none none none).1 "ACK" (some [("CSeq", "1 ACK")]) none none).1.cseq <
      (send_request (send_request ⟨0, none, false⟩ "INVITE" none none none).1
        "INFO" none none none).1.cseq) := by
  refine ⟨rfl, rfl, ?_⟩
  decide

/-- C3 (amended): the cseq counter changes only through these modes,
and through nothing else in any outcome of any operation —
`send_request` without a caller-supplied CSeq header increments it by
exactly 1; `send_request` with one adopts the header's leading number
(which need not be larger; a non-numeric header leaves the counter
unchanged and raises `ValueError`); `recv_request` either leaves the
counter unchanged or, only while it is zero, seeds it from the accepted
message's CSeq number — also when it goes on to raise the protocol
mismatch; and `recv_response` either leaves the counter unchanged or,
only when `require_cancel` is set, adopts the accepted response's CSeq
leading number through the ACK safety net (`send_response` touches no
agent state at all, so it has no mode). -/
theorem cseq_update_rules (ua : Agent) (method status : String)
    (headers : Option Headers) (toD frD : Option String)
    (ignore : List String) (ignoreS : List Int) (q : List RawMsg) :
    (hfind (headers.getD []) "CSeq" = none →
      (send_request ua method headers toD frD).1.cseq = ua.cseq + 1) ∧
    (∀ v, hfind (headers.getD []) "CSeq" = some v →
      (∀ n, pyInt? (beforeSpace v) = some n →
        (send_request ua method headers toD frD).1.cseq = n) ∧
      (pyInt? (beforeSpace v) = none →
        (send_request ua method headers toD frD).1.cseq = ua.cseq)) ∧
    ((recv_request ua method ignore q).1.cseq = ua.cseq ∨
      (ua.cseq = 0 ∧ ∃ m rest1,
        (recv_request_loop ua ignore q).2 = .ok (m, rest1) ∧
        pyInt? (beforeSpace m.cseqHeader) =
          some (recv_request ua method ignore q).1.cseq)) ∧
    (ua.cseq ≠ 0 → (recv_request ua method ignore q).1.cseq = ua.cseq) ∧
    ((recv_response ua status ignoreS q).agent.cseq = ua.cseq ∨
      (ua.require_cancel = true ∧ ∃ m rest1,
        (recv_response_loop ua ignoreS q).2 = .ok (m, rest1) ∧
        pyInt? (beforeSpace m.cseqHeader) =
          some (recv_response ua status ignoreS q).agent.cseq)) := by
  refine ⟨?_, ?_, ?_, ?_, ?_⟩
  · intro hf
    simp [send_request, hf, applyRequireCancel_cseq]
  · intro v hv
    constructor
    · intro n hn
      simp only [send_request, hv, hn]
    · intro hn
      simp only [send_request, hv, hn]
      exact applyRequireCancel_cseq _ _
  · unfold recv_request
    rcases hl : recv_request_loop ua ignore q with ⟨ua1, res⟩
    have hcs : ua1.cseq = ua.cseq := by
      have := recv_request_loop_cseq_rc q ua ignore
      rw [hl] at this; exact this.1
    rcases res with e | ⟨m, rest1⟩ <;> dsimp only
    · left; exact hcs
    · by_cases hz : ua1.cseq = 0
      · rw [if_pos hz]
        rcases hp : pyInt? (beforeSpace m.cseqHeader) with _ | n <;> dsimp only
        · left; exact hcs
        · right
          refine ⟨by rw [← hcs]; exact hz, m, rest1, rfl, ?_⟩
          by_cases hmm : m.method ≠ method
          · rw [if_pos hmm]
            exact hp
          · rw [if_neg hmm]
            exact hp
      · rw [if_neg hz]
        by_cases hmm : m.method ≠ method
        · rw [if_pos hmm]
          left; exact hcs
        · rw [if_neg hmm]
          left; exact hcs
  · intro hz
    unfold recv_request
    rcases hl : recv_request_loop ua ignore q with ⟨ua1, res⟩
    have h1 : ua1.cseq = ua.cseq := by
      have := recv_request_loop_cseq_rc q ua ignore
      rw [hl] at this; exact this.1
    have hz1 : ¬ ua1.cseq = 0 := by rw [h1]; exact hz
    rcases res with e | ⟨m, rest⟩
    · simpa using h1
    · simp only [if_neg hz1]
      split_ifs <;> simpa using h1
  · unfold recv_response
    rcases hsp : splitOnceSpace status with _ | ⟨codeStr, msgStr⟩ <;> dsimp only
    · left; rfl
    · rcases hpc : pyInt? codeStr with _ | code <;> dsimp only
      · left; rfl
      · rcases hl : recv_response_loop ua ignoreS q with ⟨ua1, res⟩
        have hpair := recv_response_loop_cseq_rc q ua ignoreS
        rw [hl] at hpair
        obtain ⟨hcs, hrc⟩ := hpair
        rcases res with e | ⟨m, rest1⟩ <;> dsimp only
        · left; exact hcs
        · by_cases hmc : m.statusCode ≠ code
          · rw [if_pos hmc]
            by_cases hrcb : ua1.require_cancel = true
            · rw [if_pos hrcb]
              rcases hack : Response.ack ⟨ua1, m⟩ with ⟨ua2, ares⟩
              have hackc := Response_ack_cseq ⟨ua1, m⟩
              rw [hack] at hackc
              rcases ares with e | sentAck <;> dsimp only <;>
                rcases hackc with h | h
              · left; exact h.trans hcs
              · right; exact ⟨hrc ▸ hrcb, m, rest1, rfl, h⟩
              · left; exact h.trans hcs
              · right; exact ⟨hrc ▸ hrcb, m, rest1, rfl, h⟩
            · rw [if_neg hrcb]
              left; exact hcs
          · rw [if_neg hmc]
            left; exact hcs

/-- Witness for C3 (amended) at concrete inputs: an unlabelled send from
counter 3 goes to 4; a send supplying CSeq "9 BYE" sets it to 9; a send
supplying the non-numeric CSeq "x ACK" leaves it 3; a `recv_request`
from nonzero counter 7 leaves it 7; `recv_request` from counter 0 and
`recv_response` from a mismatching 486 with the flag set fall under the
exhaustive mode disjunctions. -/
theorem cseq_update_rules_witness :
    (send_request ⟨3, none, false⟩ "INVITE" none none none).1.cseq = (3 : Int) + 1 ∧
    (send_request ⟨3, none, false⟩ "BYE" (some [("CSeq", "9 BYE")]) none none).1.cseq = 9 ∧
    (send_request ⟨3, none, false⟩ "ACK" (some [("CSeq", "x ACK")]) none none).1.cseq = 3 ∧
    (recv_request ⟨7, some "c", false⟩ "INVITE" []
      [⟨true, "INVITE", 0, "", "c", "6 INVITE", "t", "f"⟩]).1.cseq = 7 ∧
    ((recv_request ⟨0, some "c", false⟩ "INVITE" []
        [⟨true, "INVITE", 0, "", "c", "6 INVITE", "t", "f"⟩]).1.cseq =
          (⟨0, some "c", false⟩ : Agent).cseq ∨
      ((⟨0, some "c", false⟩ : Agent).cseq = 0 ∧ ∃ m rest1,
        (recv_request_loop ⟨0, some "c", false⟩ []
          [⟨true, "INVITE", 0, "", "c", "6 INVITE", "t", "f"⟩]).2 = .ok (m, rest1) ∧
        pyInt? (beforeSpace m.cseqHeader) =
          some (recv_request ⟨0, some "c", false⟩ "INVITE" []
            [⟨true, "INVITE", 0, "", "c", "6 INVITE", "t", "f"⟩]).1.cseq)) ∧
    ((recv_response ⟨5, some "c1", true⟩ "200 OK" []
        [⟨false, "INVITE", 486, "Busy Here", "c1", "1 INVITE", "tA", "fA"⟩]).agent.cseq =
          (⟨5, some "c1", true⟩ : Agent).cseq ∨
      ((⟨5, some "c1", true⟩ : Agent).require_cancel = true ∧ ∃ m rest1,
        (recv_response_loop ⟨5, some "c1", true⟩ []
          [⟨false, "INVITE", 486, "Busy Here", "c1", "1 INVITE", "tA", "fA"⟩]).2 =
            .ok (m, rest1) ∧
        pyInt? (beforeSpace m.cseqHeader) =
          some (recv_response ⟨5, some "c1", true⟩ "200 OK" []
            [⟨false, "INVITE", 486, "Busy Here", "c1", "1 INVITE", "tA", "fA"⟩]).agent.cseq)) :=
  ⟨(cseq_update_rules ⟨3, none, false⟩ "INVITE" "200 OK" none none none [] [] []).1 rfl,
   ((cseq_update_rules ⟨3, none, false⟩ "BYE" "200 OK" (some [("CSeq", "9 BYE")])
       none none [] [] []).2.1 "9 BYE" rfl).1 9 (by decide),
   ((cseq_update_rules ⟨3, none, false⟩ "ACK" "200 OK" (some [("CSeq", "x ACK")])
       none none [] [] []).2.1 "x ACK" rfl).2 (by decide),
   (cseq_update_rules ⟨7, some "c", false⟩ "INVITE" "200 OK" none none none []
     [] [⟨true, "INVITE", 0, "", "c", "6 INVITE", "t", "f"⟩]).2.2.2.1 (by decide),
   (cseq_update_rules ⟨0, some "c", false⟩ "INVITE" "200 OK" none none none []
     [] [⟨true, "INVITE", 0, "", "c", "6 INVITE", "t", "f"⟩]).2.2.1,
   (cseq_update_rules ⟨5, some "c1", true⟩ "INVITE" "200 OK" none none none []
     [] [⟨false, "INVITE", 486, "Busy Here", "c1", "1 INVITE", "tA", "fA"⟩]).2.2.2.2⟩

/-- C5: after any `send_request(method, ...)` the safety flag is true
exactly when the method is INVITE, false exactly when it is ACK, and
unchanged otherwise (also on the `ValueError` path, since the flag is
updated before the CSeq processing); consequently, along any trace of
sends the flag is true iff the last INVITE-or-ACK send of the trace was
an INVITE (or there was none and the flag already was true) — i.e. the
flag is true only between an INVITE send and the following ACK send. -/
theorem require_cancel_invariant (ua : Agent) (method : String)
    (headers : Option Headers) (toD frD : Option String) (ms : List String) :
    ((send_request ua method headers toD frD).1.require_cancel =
      (if method = "INVITE" then true
       else if method = "ACK" then false
       else ua.require_cancel)) ∧
    ((foldSends ua ms).require_cancel = true ↔
      ((ms.filter (fun x => x == "INVITE" || x == "ACK")).getLast? = some "INVITE" ∨
       ((ms.filter (fun x => x == "INVITE" || x == "ACK")) = [] ∧
         ua.require_cancel = true))) :=
  ⟨(send_request_fst_rc ua method headers toD frD).trans (applyRequireCancel_rc ua method),
   foldSends_rc_iff ms ua⟩

/-- C9: `send_response` called with the headers argument omitted (the
`None` default) does not transmit a reply: evaluating `headers.copy()`
raises `AttributeError`, for every agent state and routing arguments —
the code never substitutes an empty dict the way `send_request` does. -/
theorem send_response_omitted_headers_fails (ua : Agent) (toD frD : Option String) :
    send_response ua "200 OK" none toD frD = .error (.attributeError "copy") := rfl

/-- Witness for C4 at concrete inputs: an agent holding Call-ID "A"
keeps it across a `recv_request`, a `recv_response` and a
`send_request` over a queue that starts with a message for Call-ID "B",
and the returned message carries Call-ID "A". -/
theorem call_id_immutable_and_filters_witness :
    ((recv_request ⟨0, some "A", false⟩ "INVITE" []
        [⟨true, "INVITE", 0, "", "B", "1 INVITE", "t", "f"⟩,
         ⟨true, "INVITE", 0, "", "A", "1 INVITE", "t", "f"⟩]).1.call_id = some "A" ∧
      ∀ r rest, (recv_request ⟨0, some "A", false⟩ "INVITE" []
        [⟨true, "INVITE", 0, "", "B", "1 INVITE", "t", "f"⟩,
         ⟨true, "INVITE", 0, "", "A", "1 INVITE", "t", "f"⟩]).2 = .ok (r, rest) →
          r.data.callId = "A") ∧
    ((recv_response ⟨0, some "A", false⟩ "200 OK" []
        [⟨true, "INVITE", 0, "", "B", "1 INVITE", "t", "f"⟩,
         ⟨true, "INVITE", 0, "", "A", "1 INVITE", "t", "f"⟩]).agent.call_id = some "A" ∧
      ∀ r rest, (recv_response ⟨0, some "A", false⟩ "200 OK" []
        [⟨true, "INVITE", 0, "", "B", "1 INVITE", "t", "f"⟩,
         ⟨true, "INVITE", 0, "", "A", "1 INVITE", "t", "f"⟩]).res = .ok (r, rest) →
          r.data.callId = "A") ∧
    (send_request ⟨0, some "A", false⟩ "INVITE" none none none).1.call_id = some "A" :=
  call_id_immutable_and_filters ⟨0, some "A", false⟩ "A" rfl (by decide)
    "INVITE" "200 OK" [] []
    [⟨true, "INVITE", 0, "", "B", "1 INVITE", "t", "f"⟩,
     ⟨true, "INVITE", 0, "", "A", "1 INVITE", "t", "f"⟩] none none none

/-- Witness for C6 at concrete inputs: expecting INVITE and receiving a
BYE yields the mismatch error carrying both methods; receiving an INVITE
returns the wrapped request. -/
theorem recv_request_mismatch_reports_both_witness :
    (recv_request ⟨0, none, false⟩ "INVITE" []
        [⟨true, "BYE", 0, "", "c1", "4 BYE", "t", "f"⟩]).2 =
      .error (.protocolMismatch "INVITE" "BYE") ∧
    ∃ ua2, recv_request ⟨0, none, false⟩ "INVITE" []
        [⟨true, "INVITE", 0, "", "c1", "4 INVITE", "t", "f"⟩] =
      (ua2, .ok (⟨ua2, ⟨true, "INVITE", 0, "", "c1", "4 INVITE", "t", "f"⟩⟩, [])) :=
  ⟨(recv_request_mismatch_reports_both ⟨0, none, false⟩ "INVITE" []
      [⟨true, "BYE", 0, "", "c1", "4 BYE", "t", "f"⟩] ⟨0, some "c1", false⟩
      ⟨true, "BYE", 0, "", "c1", "4 BYE", "t", "f"⟩ []
      (by decide) (.inr (by decide))).1 (by decide),
   (recv_request_mismatch_reports_both ⟨0, none, false⟩ "INVITE" []
      [⟨true, "INVITE", 0, "", "c1", "4 INVITE", "t", "f"⟩] ⟨0, some "c1", false⟩
      ⟨true, "INVITE", 0, "", "c1", "4 INVITE", "t", "f"⟩ []
      (by decide) (.inr (by decide))).2 rfl⟩

/-- Witness for C7 at a concrete input: a response with CSeq "7 INVITE"
acknowledged and cancelled — the CSeq number 7 is kept, the method token
replaced, the routing details copied. -/
theorem response_ack_cancel_replace_method_witness :
    Response.ack ⟨⟨9, some "c", true⟩,
        ⟨false, "INVITE", 486, "B", "c", "7 INVITE", "t", "f"⟩⟩ =
      (⟨7, some "c", false⟩,
        .ok ⟨"ACK", [("CSeq", beforeSpace "7 INVITE" ++ " " ++ "ACK")],
          some "t", some "f"⟩) ∧
    Response.cancel ⟨⟨9, some "c", true⟩,
        ⟨false, "INVITE", 486, "B", "c", "7 INVITE", "t", "f"⟩⟩ =
      (⟨7, some "c", true⟩,
        .ok ⟨"CANCEL", [("CSeq", beforeSpace "7 INVITE" ++ " " ++ "CANCEL")],
          some "t", some "f"⟩) :=
  response_ack_cancel_replace_method ⟨9, some "c", true⟩
    ⟨false, "INVITE", 486, "B", "c", "7 INVITE", "t", "f"⟩ 7 (by decide)

/-- Witness for C8 at concrete inputs: a message for registered Call-ID
"a" is appended to the queue; an unmatched message arriving after the
signal resolved is discarded; the resolved signal stays resolved. -/
theorem dispatch_routes_and_resolves_once_witness :
    dispatch ⟨["a"], [], false⟩ ⟨true, "M", 0, "", "a", "1 M", "t", "f"⟩ =
      ⟨["a"], [⟨true, "M", 0, "", "a", "1 M", "t", "f"⟩], false⟩ ∧
    dispatch ⟨["a"], [], true⟩ ⟨true, "M", 0, "", "b", "1 M", "t", "f"⟩ =
      ⟨["a"], [], true⟩ ∧
    ([⟨true, "M", 0, "", "b", "1 M", "t", "f"⟩].foldl dispatch
      ⟨["a"], [], true⟩).dialogReady = true :=
  ⟨(dispatch_routes_and_resolves_once ⟨["a"], [], false⟩
      ⟨true, "M", 0, "", "a", "1 M", "t", "f"⟩).1 (by decide),
   (dispatch_routes_and_resolves_once ⟨["a"], [], true⟩
      ⟨true, "M", 0, "", "b", "1 M", "t", "f"⟩).2.1 (by decide) rfl,
   (dispatch_routes_and_resolves_once ⟨["a"], [], true⟩
      ⟨true, "M", 0, "", "b", "1 M", "t", "f"⟩).2.2
     [⟨true, "M", 0, "", "b", "1 M", "t", "f"⟩] rfl⟩

/-- Witness for C10 at a concrete input: the auto-respond step on a
180-intercepted Response-kind message raises the `respond`
AttributeError. -/
theorem response_kind_auto_respond_fails_witness :
    recvAutoRespond ⟨0, none, false⟩ ⟨false, "X", 200, "OK", "c", "1 X", "t", "f"⟩
        "180 Ringing" =
      (⟨0, none, false⟩, .error (.attributeError "respond")) ∧
    wrapperRespondResolves false = false ∧
    (∀ m2 : RawMsg, m2.isRequest = true →
      ∃ rep, recvAutoRespond ⟨0, none, false⟩ m2 "200 OK" =
        (⟨0, none, false⟩, .ok rep)) :=
  response_kind_auto_respond_fails ⟨0, none, false⟩
    ⟨false, "X", 200, "OK", "c", "1 X", "t", "f"⟩ "180 Ringing" rfl

end Sipster
